import Mathlib

/-!
Shallow embedding of the inventory-management program (models.py,
file_handler.py, stock_manager.py) and proofs about the claims of its
specification.

Modelling conventions:
* Python `float` prices are modelled as `ℚ`.  The program performs no
  floating-point arithmetic on prices — only comparisons with `0`,
  construction and serialization — so exact rationals are a faithful model
  of the values that actually occur.
* Python strings are Lean `String`s.  `str.strip`, `str.isdigit` and
  `str.lower` are modelled over the ASCII range (the default whitespace
  set of `strip`, decimal digits, ASCII letter case); the program applies
  them to ordinary product codes and names.
* File I/O cannot be embedded; the outcome of `guardar_productos` (the
  save call that every mutating operation makes) is an explicit boolean
  parameter `saveOk` of each operation, and the operations are pure
  functions from the current in-memory list to `(result, new list)`.
* The result messages of stock_manager.py are Spanish format strings; they
  are modelled by the inductive type `Msg`, one constructor per distinct
  message template, carrying the interpolated values.
-/

namespace Stock

/-- The default whitespace characters of Python `str.strip` (ASCII part):
space, tab, newline, carriage return, vertical tab, form feed. -/
def isSpaceChar (c : Char) : Bool :=
  c.toNat == 32 || c.toNat == 9 || c.toNat == 10 || c.toNat == 13 ||
  c.toNat == 11 || c.toNat == 12

/-- Python `str.strip()` (ASCII whitespace): drop whitespace from both ends. -/
def pyStrip (s : String) : String :=
  String.mk (((s.data.dropWhile isSpaceChar).reverse.dropWhile isSpaceChar).reverse)

/-- Python `str.lower` on one character (ASCII range). -/
def pyLowerChar (c : Char) : Char :=
  if 65 ≤ c.toNat ∧ c.toNat ≤ 90 then Char.ofNat (c.toNat + 32) else c

/-- Python `str.lower()` (ASCII range). -/
def pyLower (s : String) : String :=
  String.mk (s.data.map pyLowerChar)

/-- Python `str.isdigit()` (decimal digits): nonempty and all digits. -/
def pyIsDigit (s : String) : Bool :=
  !(s.data.isEmpty) && s.data.all Char.isDigit

/-- Python substring test `needle in hay` on character lists. -/
def isSubstr (needle : List Char) : List Char → Bool
  | [] => needle.isEmpty
  | c :: t => needle.isPrefixOf (c :: t) || isSubstr needle t

/-- models.py: the `Product` dataclass.  Dataclass equality compares all
five fields, which `DecidableEq` mirrors. -/
structure Product where
  codigo : String
  nombre : String
  categoria : String
  precio : ℚ
  cantidad : Int
deriving DecidableEq, Repr

/-- The result messages of stock_manager.py, one constructor per distinct
message template of the source, carrying the values the source interpolates:
* `codigoVacio`       — "El codigo no puede estar vacio."
* `codigoExiste c`    — "El codigo c ya existe en el sistema."
* `nombreInvalido`    — "El nombre no puede estar vacio o ser solo numeros."
* `categoriaVacia`    — "La categoria no puede estar vacia."
* `precioInvalido`    — "El precio debe ser mayor a 0."
* `cantidadInvalida`  — "La cantidad debe ser mayor o igual a 0."
* `agregadoOk n`      — "Producto n agregado correctamente."
* `guardarError`      — "Error al guardar el producto en el archivo."
* `noEncontrado c`    — "Producto con codigo c no encontrado."
* `sinCambios`        — "No se especificaron cambios a realizar."
* `modificadoOk n`    — "Producto n modificado correctamente."
* `eliminadoOk n`     — "Producto n eliminado correctamente."
* `guardarCambiosError` — "Error al guardar los cambios en el archivo." -/
inductive Msg where
  | codigoVacio
  | codigoExiste (codigo : String)
  | nombreInvalido
  | categoriaVacia
  | precioInvalido
  | cantidadInvalida
  | agregadoOk (nombre : String)
  | guardarError
  | noEncontrado (codigo : String)
  | sinCambios
  | modificadoOk (nombre : String)
  | eliminadoOk (nombre : String)
  | guardarCambiosError
deriving DecidableEq, Repr

/-- stock_manager.py `_validar_codigo`: the code is truthy and not
whitespace-only. -/
def validar_codigo (codigo : String) : Bool :=
  !(codigo == "") && !(pyStrip codigo == "")

/-- stock_manager.py `_codigo_existe`: some product of the list has this
exact code (string equality, no trimming). -/
def codigo_existe (productos : List Product) (codigo : String) : Bool :=
  productos.any (fun p => p.codigo == codigo)

/-- stock_manager.py `_validar_nombre`: truthy, not whitespace-only, and the
trimmed name is not composed solely of digits. -/
def validar_nombre (nombre : String) : Bool :=
  !(nombre == "") && !(pyStrip nombre == "") && !(pyIsDigit (pyStrip nombre))

/-- stock_manager.py `_validar_categoria`: truthy and not whitespace-only. -/
def validar_categoria (categoria : String) : Bool :=
  !(categoria == "") && !(pyStrip categoria == "")

/-- stock_manager.py `_validar_precio`: strictly positive. -/
def validar_precio (precio : ℚ) : Bool :=
  decide (0 < precio)

/-- stock_manager.py `_validar_cantidad`: non-negative. -/
def validar_cantidad (cantidad : Int) : Bool :=
  decide (0 ≤ cantidad)

/-- Python `list.remove(x)`: delete the first element equal to `x`.
(The source only calls it when `x` is present; on an absent element Python
raises, modelled here as the identity.) -/
def pyRemove (l : List Product) (x : Product) : List Product :=
  match l with
  | [] => []
  | a :: t => if a = x then t else a :: pyRemove t x

/-- stock_manager.py `agregar_producto`, as a function of the save outcome
`saveOk` and the current list.  Returns the `(exito, mensaje)` pair together
with the list after the call. -/
def agregar_producto (saveOk : Bool) (productos : List Product)
    (codigo nombre categoria : String) (precio : ℚ) (cantidad : Int) :
    (Bool × Msg) × List Product :=
  if !(validar_codigo codigo) then ((false, .codigoVacio), productos)
  else if codigo_existe productos codigo then
    ((false, .codigoExiste codigo), productos)
  else if !(validar_nombre nombre) then ((false, .nombreInvalido), productos)
  else if !(validar_categoria categoria) then
    ((false, .categoriaVacia), productos)
  else if !(validar_precio precio) then ((false, .precioInvalido), productos)
  else if !(validar_cantidad cantidad) then
    ((false, .cantidadInvalida), productos)
  else
    let nuevo : Product := ⟨codigo, nombre, categoria, precio, cantidad⟩
    let l1 := productos ++ [nuevo]
    if saveOk then ((true, .agregadoOk nombre), l1)
    else ((false, .guardarError), pyRemove l1 nuevo)

/-- stock_manager.py `buscar_por_codigo`: first product with this exact
code, or none. -/
def buscar_por_codigo (productos : List Product) (codigo : String) :
    Option Product :=
  productos.find? (fun p => p.codigo == codigo)

/-- stock_manager.py `buscar_por_nombre`: for a truthy, non-whitespace
query, the products whose lower-cased name contains the query lowered and
then stripped, in list order. -/
def buscar_por_nombre (productos : List Product) (nombre : String) :
    List Product :=
  if nombre == "" || pyStrip nombre == "" then []
  else
    let nombre_lower := pyStrip (pyLower nombre)
    productos.filter (fun p => isSubstr nombre_lower.data (pyLower p.nombre).data)

/-- stock_manager.py `listar_productos`: a shallow copy of the list (equal
as a list value). -/
def listar_productos (productos : List Product) : List Product :=
  productos

/-- The outcome of the save call of `modificar_producto` / `eliminar_producto`
(stock_manager.py lines 189-192 and 213-217): on success the success message
naming the product, on failure the save-failure message; in both cases the
in-memory list stays as the operation left it (update does not roll back). -/
def guardarPaso (saveOk : Bool) (mensajeOk : Msg) (l : List Product) :
    (Bool × Msg) × List Product :=
  if saveOk then ((true, mensajeOk), l) else ((false, .guardarCambiosError), l)

/-- stock_manager.py `modificar_producto`, as a function of the save outcome
and the current list.  The found product is identified by its index (the
source mutates the object returned by `buscar_por_codigo`, which is the first
product with the given code; mutating it in place is modelled by `List.set`
at that index).  Mirrors the source control flow: price validated and applied
first, then quantity — so a valid price is already applied when an invalid
quantity aborts the call. -/
def modificar_producto (saveOk : Bool) (productos : List Product)
    (codigo : String) (precio : Option ℚ) (cantidad : Option Int) :
    (Bool × Msg) × List Product :=
  match productos.findIdx? (fun p => p.codigo == codigo) with
  | none => ((false, .noEncontrado codigo), productos)
  | some i =>
    match productos[i]? with
    | none => ((false, .noEncontrado codigo), productos)
    | some p =>
      match precio, cantidad with
      | none, none => ((false, .sinCambios), productos)
      | some pr, none =>
        if !(validar_precio pr) then ((false, .precioInvalido), productos)
        else guardarPaso saveOk (.modificadoOk p.nombre)
          (productos.set i { p with precio := pr })
      | none, some q =>
        if !(validar_cantidad q) then ((false, .cantidadInvalida), productos)
        else guardarPaso saveOk (.modificadoOk p.nombre)
          (productos.set i { p with cantidad := q })
      | some pr, some q =>
        if !(validar_precio pr) then ((false, .precioInvalido), productos)
        else if !(validar_cantidad q) then
          ((false, .cantidadInvalida), productos.set i { p with precio := pr })
        else guardarPaso saveOk (.modificadoOk p.nombre)
          (productos.set i { p with precio := pr, cantidad := q })

/-- stock_manager.py `eliminar_producto`, as a function of the save outcome
and the current list: look up the first product with the code, remove it
(Python `list.remove`), and on save failure append it back at the end. -/
def eliminar_producto (saveOk : Bool) (productos : List Product)
    (codigo : String) : (Bool × Msg) × List Product :=
  match buscar_por_codigo productos codigo with
  | none => ((false, .noEncontrado codigo), productos)
  | some p =>
    let l1 := pyRemove productos p
    if saveOk then ((true, .eliminadoOk p.nombre), l1)
    else ((false, .guardarCambiosError), l1 ++ [p])

/-! ### Persistence model (models.py `to_dict` / `from_dict`,
file_handler.py `cargar_productos` / `guardar_productos`)

`json.dump` / `json.load` round-trip the values this program writes exactly
(strings are written UTF-8 unescaped, ints as ints, floats by shortest
repr, which parses back to the same float), so serialization is modelled as
the identity on a `ProductDict`, the mapping `to_dict` builds.  A JSON value
that may appear in a numeric field is modelled by `Jval`; Python numeric
strings are not modelled (no claim concerns string-typed numeric fields —
§6 fixes `precio` and `cantidad` as JSON numbers). -/

/-- A JSON value in a numeric field of a persisted record: an integer, a
float (as `ℚ`), a boolean (Python `bool` is an `int` subtype, so `float` /
`int` accept it), or anything else (null, string, array, object), which
Python `float()` / `int()` rejects here with a `TypeError` / `ValueError`. -/
inductive Jval where
  | jint (n : Int)
  | jfloat (q : ℚ)
  | jbool (b : Bool)
  | jother
deriving DecidableEq, Repr

/-- Python `float(x)` on a JSON numeric-field value, `none` = raises. -/
def pyFloat : Jval → Option ℚ
  | .jint n => some (n : ℚ)
  | .jfloat q => some q
  | .jbool b => some (if b then 1 else 0)
  | .jother => none

/-- Truncation toward zero, the rounding of Python `int(float)`
(`Int.tdiv` rounds toward zero). -/
def ratTrunc (q : ℚ) : Int :=
  q.num.tdiv q.den

/-- Python `int(x)` on a JSON numeric-field value, `none` = raises. -/
def pyInt : Jval → Option Int
  | .jint n => some n
  | .jfloat q => some (ratTrunc q)
  | .jbool b => some (if b then 1 else 0)
  | .jother => none

/-- The dictionary `to_dict` builds / `from_dict` reads: one optional entry
per key (`none` = key absent, raising `KeyError` in `from_dict`).  The three
string fields are modelled as strings, per the persisted layout of §6; the
two numeric fields carry an arbitrary JSON value, since `from_dict` coerces
them. -/
structure ProductDict where
  codigo : Option String
  nombre : Option String
  categoria : Option String
  precio : Option Jval
  cantidad : Option Jval
deriving DecidableEq, Repr

/-- models.py `Product.to_dict`: the five fields keyed by name.  `precio` is
a Python float, so it serializes (and parses back) as a JSON float;
`cantidad` is a Python int. -/
def to_dict (p : Product) : ProductDict :=
  ⟨some p.codigo, some p.nombre, some p.categoria,
   some (.jfloat p.precio), some (.jint p.cantidad)⟩

/-- models.py `Product.from_dict`: read the five keys (`KeyError` when one
is absent), coercing `precio` with `float()` and `cantidad` with `int()`;
`none` = the call raises (`KeyError`, `ValueError` or `TypeError`). -/
def from_dict (d : ProductDict) : Option Product :=
  match d.codigo, d.nombre, d.categoria, d.precio, d.cantidad with
  | some c, some n, some cat, some pv, some qv =>
    match pyFloat pv, pyInt qv with
    | some pr, some q => some ⟨c, n, cat, pr, q⟩
    | _, _ => none
  | _, _, _, _, _ => none

/-- file_handler.py `cargar_productos`, happy path: the parsed top-level
list is a list of records; each record that deserializes is appended, each
record whose `from_dict` raises is skipped, the rest continue.  (A missing
file, a non-list top level, corrupt JSON or an I/O error all return the
empty list in the source and involve no record at all.) -/
def cargar_productos (datos : List ProductDict) : List Product :=
  datos.foldl
    (fun acc item =>
      match from_dict item with
      | some p => acc ++ [p]
      | none => acc)
    []

/-- file_handler.py `guardar_productos`: the serialized payload written to
the file — every product mapped through `to_dict`.  (Whether the write
succeeds is the `saveOk` parameter of the operations above.) -/
def guardar_datos (productos : List Product) : List ProductDict :=
  productos.map to_dict

/-- Modelled from the spec (§4.3, add): the first violated validation rule
in the order code, uniqueness, name, category, price, quantity — `none` when
every rule holds.  Spec-side definition, to be compared with
`agregar_producto`. -/
def primeraViolacion (productos : List Product)
    (codigo nombre categoria : String) (precio : ℚ) (cantidad : Int) :
    Option Msg :=
  if !(validar_codigo codigo) then some .codigoVacio
  else if codigo_existe productos codigo then some (.codigoExiste codigo)
  else if !(validar_nombre nombre) then some .nombreInvalido
  else if !(validar_categoria categoria) then some .categoriaVacia
  else if !(validar_precio precio) then some .precioInvalido
  else if !(validar_cantidad cantidad) then some .cantidadInvalida
  else none

/-- The P1/Mouse product of the §8 scenarios, used as a concrete instance. -/
def prodP1 : Product := ⟨"P1", "Mouse", "Perifericos", 10, 5⟩

example : validar_codigo "  " = false := by decide
example : validar_nombre "123" = false := by decide
example : validar_nombre "Widget1" = true := by decide
example : pyStrip " P1 " = "P1" := by decide
example : pyLower "MoUSE" = "mouse" := by decide
example : isSubstr "mo".data "monitor".data = true := by decide
example : isSubstr "mo".data "teclado".data = false := by decide
example :
    agregar_producto true [] "P1" "Mouse" "Perif" 10 5
      = ((true, .agregadoOk "Mouse"), [⟨"P1", "Mouse", "Perif", 10, 5⟩]) := by
  decide

/-! ### Helper lemmas -/

lemma char_toNat_ofNat (n : Nat) (h : n.isValidChar) :
    (Char.ofNat n).toNat = n := by
  simp [Char.ofNat, dif_pos h, Char.ofNatAux, Char.toNat]
  rfl

lemma isSpaceChar_pyLowerChar (c : Char) :
    isSpaceChar (pyLowerChar c) = isSpaceChar c := by
  unfold pyLowerChar
  split
  · rename_i h
    have hv : (c.toNat + 32).isValidChar := Or.inl (by omega)
    have ht : (Char.ofNat (c.toNat + 32)).toNat = c.toNat + 32 :=
      char_toNat_ofNat _ hv
    have h1 : isSpaceChar (Char.ofNat (c.toNat + 32)) = false := by
      simp [isSpaceChar, ht]; omega
    have h2 : isSpaceChar c = false := by
      simp [isSpaceChar]; omega
    rw [h1, h2]
  · rfl

lemma pyStrip_pyLower (s : String) :
    pyStrip (pyLower s) = pyLower (pyStrip s) := by
  have hfun : isSpaceChar ∘ pyLowerChar = isSpaceChar := by
    funext c; exact isSpaceChar_pyLowerChar c
  simp only [pyStrip, pyLower, List.dropWhile_map, hfun, ← List.map_reverse]

lemma set_self_of_getElem? {α : Type} :
    ∀ (l : List α) (i : Nat) (a : α), l[i]? = some a → l.set i a = l
  | [], i, a, h => by simp at h
  | b :: t, 0, a, h => by
    simp at h
    simp [h]
  | b :: t, i + 1, a, h => by
    simp at h ⊢
    exact set_self_of_getElem? t i a h

lemma codigo_existe_eq_false_iff (l : List Product) (c : String) :
    codigo_existe l c = false ↔ ∀ x ∈ l, x.codigo ≠ c := by
  simp [codigo_existe]

lemma pyRemove_append_self (l : List Product) (p : Product)
    (h : ∀ x ∈ l, x ≠ p) : pyRemove (l ++ [p]) p = l := by
  induction l with
  | nil => simp [pyRemove]
  | cons a t ih =>
    have ha : ¬(a = p) := h a (List.mem_cons_self a t)
    have ih2 := ih (fun x hx => h x (List.mem_cons_of_mem a hx))
    simp [pyRemove, ha, ih2]

lemma perm_cons_pyRemove (p : Product) (l : List Product) (h : p ∈ l) :
    l.Perm (p :: pyRemove l p) := by
  induction l with
  | nil => cases h
  | cons a t ih =>
    by_cases hap : a = p
    · subst hap
      simp [pyRemove]
    · have hpt : p ∈ t := by
        rcases List.mem_cons.mp h with h1 | h1
        · exact absurd h1.symm hap
        · exact h1
      have h1 : (a :: t).Perm (a :: p :: pyRemove t p) := (ih hpt).cons a
      have h2 : (a :: p :: pyRemove t p).Perm (p :: a :: pyRemove t p) :=
        List.Perm.swap p a _
      have h3 : p :: a :: pyRemove t p = p :: pyRemove (a :: t) p := by
        simp [pyRemove, hap]
      exact h3 ▸ h1.trans h2

lemma pyRemove_sublist (l : List Product) (x : Product) :
    List.Sublist (pyRemove l x) l := by
  induction l with
  | nil => simp [pyRemove]
  | cons a t ih =>
    by_cases hax : a = x
    · simp only [pyRemove, if_pos hax]
      exact List.sublist_cons_self a t
    · simpa [pyRemove, hax] using ih.cons₂ a

lemma buscar_por_codigo_eq_some (l : List Product) (c : String) (p : Product)
    (h : buscar_por_codigo l c = some p) : p ∈ l ∧ p.codigo = c := by
  refine ⟨List.mem_of_find?_eq_some h, ?_⟩
  have := List.find?_some h
  simpa using this

lemma find?_append_of_none {α : Type} (l₁ l₂ : List α) (p : α → Bool)
    (h : l₁.find? p = none) : (l₁ ++ l₂).find? p = l₂.find? p := by
  rw [List.find?_append, h]
  rfl

lemma cargar_foldl_aux (datos : List ProductDict) : ∀ acc : List Product,
    datos.foldl
      (fun acc item =>
        match from_dict item with
        | some p => acc ++ [p]
        | none => acc) acc
      = acc ++ datos.filterMap from_dict := by
  induction datos with
  | nil => intro acc; simp
  | cons d t ih =>
    intro acc
    cases hd : from_dict d <;>
      simp [List.foldl_cons, hd, ih, List.filterMap_cons]

lemma cargar_eq_filterMap (datos : List ProductDict) :
    cargar_productos datos = datos.filterMap from_dict := by
  simpa using cargar_foldl_aux datos []

lemma from_dict_to_dict (p : Product) : from_dict (to_dict p) = some p := rfl

lemma not_mem_map_codigo (l : List Product) (c : String)
    (h : codigo_existe l c = false) : c ∉ l.map Product.codigo := by
  intro hmem
  rcases List.mem_map.mp hmem with ⟨x, hx, hc⟩
  exact (codigo_existe_eq_false_iff l c).mp h x hx hc

lemma agregar_valido (saveOk : Bool) (l : List Product) (c n cat : String)
    (pr : ℚ) (q : Int)
    (h1 : validar_codigo c = true) (h2 : codigo_existe l c = false)
    (h3 : validar_nombre n = true) (h4 : validar_categoria cat = true)
    (h5 : validar_precio pr = true) (h6 : validar_cantidad q = true) :
    agregar_producto saveOk l c n cat pr q =
      if saveOk then ((true, .agregadoOk n), l ++ [⟨c, n, cat, pr, q⟩])
      else ((false, .guardarError), l) := by
  have hrem : pyRemove (l ++ [⟨c, n, cat, pr, q⟩]) ⟨c, n, cat, pr, q⟩ = l := by
    apply pyRemove_append_self
    intro x hx hxp
    exact (codigo_existe_eq_false_iff l c).mp h2 x hx (by rw [hxp])
  simp [agregar_producto, h1, h2, h3, h4, h5, h6, hrem]

lemma map_codigo_set (l : List Product) (i : Nat) (p p2 : Product)
    (hget : l[i]? = some p) (hcod : p2.codigo = p.codigo) :
    (l.set i p2).map Product.codigo = l.map Product.codigo := by
  rw [List.map_set]
  apply set_self_of_getElem?
  simp [List.getElem?_map, hget, hcod]

lemma nodup_codigo_of_perm {l1 l2 : List Product} (hperm : l1.Perm l2)
    (h : (l2.map Product.codigo).Nodup) : (l1.map Product.codigo).Nodup :=
  ((hperm.map Product.codigo).nodup_iff).mpr h

/-! ### Claim theorems -/

/-- C2: for inputs passing every validation rule (code non-empty after
trimming and not equal to any existing code, name non-empty and not all
digits, category non-empty, price positive, quantity non-negative), and a
successful save, `add` succeeds and a subsequent `findByCode` with the same
code returns a product whose five fields equal the inputs. -/
theorem C2_add_then_find (l : List Product) (c n cat : String) (pr : ℚ)
    (q : Int)
    (h1 : validar_codigo c = true) (h2 : codigo_existe l c = false)
    (h3 : validar_nombre n = true) (h4 : validar_categoria cat = true)
    (h5 : validar_precio pr = true) (h6 : validar_cantidad q = true) :
    agregar_producto true l c n cat pr q
        = ((true, .agregadoOk n), l ++ [⟨c, n, cat, pr, q⟩])
    ∧ buscar_por_codigo (agregar_producto true l c n cat pr q).2 c
        = some ⟨c, n, cat, pr, q⟩ := by
  have ha := agregar_valido true l c n cat pr q h1 h2 h3 h4 h5 h6
  rw [if_pos rfl] at ha
  refine ⟨ha, ?_⟩
  rw [ha]
  unfold buscar_por_codigo
  have hnone : l.find? (fun p => p.codigo == c) = none := by
    rw [List.find?_eq_none]
    intro x hx
    simpa using (codigo_existe_eq_false_iff l c).mp h2 x hx
  rw [find?_append_of_none _ _ _ hnone]
  simp [List.find?]

/-- C2 witness: the P1/Mouse scenario of §8. -/
theorem C2_witness :
    agregar_producto true [] "P1" "Mouse" "Perifericos" 10 5
        = ((true, .agregadoOk "Mouse"), [⟨"P1", "Mouse", "Perifericos", 10, 5⟩])
    ∧ buscar_por_codigo
        (agregar_producto true [] "P1" "Mouse" "Perifericos" 10 5).2 "P1"
        = some ⟨"P1", "Mouse", "Perifericos", 10, 5⟩ :=
  C2_add_then_find [] "P1" "Mouse" "Perifericos" 10 5 (by decide) (by decide)
    (by decide) (by decide) (by decide) (by decide)

/-- C3 counterexample: the collection can hold a product whose code is
whitespace-only (the loader performs no business validation), and an `add`
that duplicates that code fails with the empty-code message, not the
uniqueness-violation message. -/
theorem C3_counterexample :
    codigo_existe [(⟨" ", "Mouse", "Perifericos", 10, 5⟩ : Product)] " " = true
    ∧ agregar_producto true [⟨" ", "Mouse", "Perifericos", 10, 5⟩] " "
        "Teclado" "Accesorios" 5 1
      = ((false, .codigoVacio), [⟨" ", "Mouse", "Perifericos", 10, 5⟩])
    ∧ Msg.codigoVacio ≠ Msg.codigoExiste " " := by
  decide

/-- C3 amended: an `add` whose code equals an existing product's code always
fails and leaves the collection exactly unchanged; the failure message is
the uniqueness violation whenever the code is non-empty after trimming,
and the empty-code message otherwise. -/
theorem C3_duplicate_add (saveOk : Bool) (l : List Product) (c n cat : String)
    (pr : ℚ) (q : Int) (hex : codigo_existe l c = true) :
    ((agregar_producto saveOk l c n cat pr q).1.1 = false
      ∧ (agregar_producto saveOk l c n cat pr q).2 = l)
    ∧ (validar_codigo c = true →
        agregar_producto saveOk l c n cat pr q
          = ((false, .codigoExiste c), l)) := by
  by_cases hv : validar_codigo c
  · simp [agregar_producto, hv, hex]
  · simp [agregar_producto, hv, hex]

/-- C3 witness: duplicating the well-formed code P1. -/
theorem C3_witness :
    ((agregar_producto true [⟨"P1", "Mouse", "Perifericos", 10, 5⟩] "P1"
        "Teclado" "Accesorios" 5 1).1.1 = false
      ∧ (agregar_producto true [⟨"P1", "Mouse", "Perifericos", 10, 5⟩] "P1"
          "Teclado" "Accesorios" 5 1).2
        = [⟨"P1", "Mouse", "Perifericos", 10, 5⟩])
    ∧ (validar_codigo "P1" = true →
        agregar_producto true [⟨"P1", "Mouse", "Perifericos", 10, 5⟩] "P1"
          "Teclado" "Accesorios" 5 1
        = ((false, .codigoExiste "P1"), [⟨"P1", "Mouse", "Perifericos", 10, 5⟩])) :=
  C3_duplicate_add true [⟨"P1", "Mouse", "Perifericos", 10, 5⟩] "P1"
    "Teclado" "Accesorios" 5 1 (by decide)

/-- C4: `add` validates in the order code, uniqueness, name, category,
price, quantity, and returns at the first violated rule with that rule's
message, the collection untouched — the first violation in this order, as
`primeraViolacion` (modelled from the spec) computes it, is exactly the
message `add` reports. -/
theorem C4_first_violation (saveOk : Bool) (l : List Product)
    (c n cat : String) (pr : ℚ) (q : Int) (m : Msg)
    (h : primeraViolacion l c n cat pr q = some m) :
    agregar_producto saveOk l c n cat pr q = ((false, m), l) := by
  unfold primeraViolacion at h
  unfold agregar_producto
  split_ifs at h ⊢ <;> simp_all

/-- C4 witness: with the name all digits, the category empty and the price
and quantity both invalid, the reported message is the name rule, the
earliest violated one in the order. -/
theorem C4_witness :
    agregar_producto false [] "P1" "123" "" (-1) (-1)
      = ((false, .nombreInvalido), []) :=
  C4_first_violation false [] "P1" "123" "" (-1) (-1) .nombreInvalido
    (by decide)

/-- C5: when the save fails, `add` rolls back by removing the just-appended
product, restoring exactly the previous list; a failed `delete` of an
existing product re-appends the removed product at the end, yielding a
permutation (same multiset) of the previous list. -/
theorem C5_save_failure_rollback (l : List Product) (c n cat : String)
    (pr : ℚ) (q : Int) (c2 : String) (p : Product)
    (h1 : validar_codigo c = true) (h2 : codigo_existe l c = false)
    (h3 : validar_nombre n = true) (h4 : validar_categoria cat = true)
    (h5 : validar_precio pr = true) (h6 : validar_cantidad q = true)
    (hdel : buscar_por_codigo l c2 = some p) :
    agregar_producto false l c n cat pr q = ((false, .guardarError), l)
    ∧ eliminar_producto false l c2
        = ((false, .guardarCambiosError), pyRemove l p ++ [p])
    ∧ (pyRemove l p ++ [p]).Perm l := by
  refine ⟨?_, ?_, ?_⟩
  · simpa using agregar_valido false l c n cat pr q h1 h2 h3 h4 h5 h6
  · simp [eliminar_producto, hdel]
  · have hp : p ∈ l := (buscar_por_codigo_eq_some l c2 p hdel).1
    exact List.perm_append_comm.trans (perm_cons_pyRemove p l hp).symm

/-- C5 witness: a failed save during an add of P2 and during a delete of P1,
over the singleton collection holding P1. -/
theorem C5_witness :
    agregar_producto false [prodP1] "P2" "Teclado" "Accesorios" 5 1
      = ((false, .guardarError), [prodP1])
    ∧ eliminar_producto false [prodP1] "P1"
      = ((false, .guardarCambiosError), pyRemove [prodP1] prodP1 ++ [prodP1])
    ∧ (pyRemove [prodP1] prodP1 ++ [prodP1]).Perm [prodP1] :=
  C5_save_failure_rollback [prodP1] "P2" "Teclado" "Accesorios" 5 1 "P1"
    prodP1 (by decide) (by decide) (by decide) (by decide) (by decide)
    (by decide) (by decide)

/-- C1 counterexample: updating P1 with a valid price (20) and an invalid
quantity (-1) fails, yet the product's price has been mutated from 10 to 20
— the collection after the failed call differs from the collection before. -/
theorem C1_counterexample :
    modificar_producto true [⟨"P1", "Mouse", "Perifericos", 10, 5⟩] "P1"
        (some 20) (some (-1))
      = ((false, .cantidadInvalida), [⟨"P1", "Mouse", "Perifericos", 20, 5⟩])
    ∧ [(⟨"P1", "Mouse", "Perifericos", 20, 5⟩ : Product)]
        ≠ [⟨"P1", "Mouse", "Perifericos", 10, 5⟩] := by
  decide

/-- C1 amended: for an update supplying both fields on an existing product,
an invalid price aborts the call before any mutation, but a valid price with
an invalid quantity aborts the call only after the price has been applied:
the call fails with the product's price already set to the new value (its
quantity unchanged). -/
theorem C1_update_both_fields (saveOk : Bool) (l : List Product) (c : String)
    (i : Nat) (p : Product) (pr : ℚ) (q : Int)
    (hidx : l.findIdx? (fun x => x.codigo == c) = some i)
    (hget : l[i]? = some p) :
    (validar_precio pr = false →
      modificar_producto saveOk l c (some pr) (some q)
        = ((false, .precioInvalido), l))
    ∧ (validar_precio pr = true → validar_cantidad q = false →
      modificar_producto saveOk l c (some pr) (some q)
        = ((false, .cantidadInvalida), l.set i { p with precio := pr })) := by
  constructor
  · intro hpr
    simp [modificar_producto, hidx, hget, hpr]
  · intro hpr hq
    simp [modificar_producto, hidx, hget, hpr, hq]

/-- C1 witness: the counterexample input through the amended statement. -/
theorem C1_witness :
    modificar_producto true [prodP1] "P1" (some 20) (some (-1))
      = ((false, .cantidadInvalida),
          [prodP1].set 0 { prodP1 with precio := 20 }) :=
  (C1_update_both_fields true [prodP1] "P1" 0 prodP1 20 (-1) (by decide)
    (by decide)).2 (by decide) (by decide)

/-- C6: `findByName` returns the empty list when the query trims to empty,
and otherwise exactly the products whose lower-cased name contains the
lower-cased trimmed query as a substring — a filter of the collection, so
matches keep collection order and are not limited. -/
theorem C6_find_by_name (l : List Product) (nombre : String) :
    buscar_por_nombre l nombre =
      if pyStrip nombre = "" then []
      else l.filter (fun p =>
        isSubstr (pyLower (pyStrip nombre)).data (pyLower p.nombre).data) := by
  unfold buscar_por_nombre
  rw [← pyStrip_pyLower]
  by_cases h0 : nombre = ""
  · subst h0
    simp [pyStrip, pyLower]
  · by_cases h1 : pyStrip nombre = ""
    · simp [h0, h1]
    · simp [h0, h1]

/-- C7: persistence round-trip — loading the serialized form of a collection
returns the same collection, element by element and in order; in particular
`from_dict` inverts `to_dict`. -/
theorem C7_round_trip (l : List Product) (p : Product) :
    cargar_productos (guardar_datos l) = l
    ∧ from_dict (to_dict p) = some p := by
  constructor
  · rw [cargar_eq_filterMap]
    unfold guardar_datos
    induction l with
    | nil => rfl
    | cons a t ih => simp [List.filterMap_cons, from_dict_to_dict, ih]
  · exact from_dict_to_dict p

/-- C8: code uniqueness is preserved by every operation — starting from a
collection with pairwise-distinct codes, the collection after any add,
update or delete (whatever the save outcome) still has pairwise-distinct
codes; the read operations (`listar_productos`, `buscar_por_codigo`,
`buscar_por_nombre`) are pure functions of the collection and do not
produce a new state at all. -/
theorem C8_uniqueness_invariant (saveOk1 saveOk2 saveOk3 : Bool)
    (l : List Product) (c n cat : String) (pr : ℚ) (q : Int)
    (c2 c3 : String) (precioOpt : Option ℚ) (cantidadOpt : Option Int)
    (h : (l.map Product.codigo).Nodup) :
    ((agregar_producto saveOk1 l c n cat pr q).2.map Product.codigo).Nodup
    ∧ ((modificar_producto saveOk2 l c2 precioOpt cantidadOpt).2.map
        Product.codigo).Nodup
    ∧ ((eliminar_producto saveOk3 l c3).2.map Product.codigo).Nodup := by
  refine ⟨?_, ?_, ?_⟩
  · by_cases h1 : validar_codigo c
    case neg => simpa [agregar_producto, h1] using h
    by_cases h2 : codigo_existe l c
    case pos => simpa [agregar_producto, h1, h2] using h
    by_cases h3 : validar_nombre n
    case neg => simpa [agregar_producto, h1, h2, h3] using h
    by_cases h4 : validar_categoria cat
    case neg => simpa [agregar_producto, h1, h2, h3, h4] using h
    by_cases h5 : validar_precio pr
    case neg => simpa [agregar_producto, h1, h2, h3, h4, h5] using h
    by_cases h6 : validar_cantidad q
    case neg => simpa [agregar_producto, h1, h2, h3, h4, h5, h6] using h
    have ha := agregar_valido saveOk1 l c n cat pr q
      (by simpa using h1) (by simpa using h2) (by simpa using h3)
      (by simpa using h4) (by simpa using h5) (by simpa using h6)
    cases saveOk1 with
    | false =>
      rw [if_neg (by decide)] at ha
      rw [ha]
      exact h
    | true =>
      rw [if_pos rfl] at ha
      rw [ha, List.map_append, List.nodup_append]
      refine ⟨h, by simp, ?_⟩
      intro a ha1 hb
      simp only [List.map_cons, List.map_nil, List.mem_singleton] at hb
      exact not_mem_map_codigo l c (by simpa using h2) (hb ▸ ha1)
  · unfold modificar_producto
    cases hidx : l.findIdx? (fun x => x.codigo == c2) with
    | none => simpa using h
    | some i =>
      cases hget : l[i]? with
      | none =>
        simp only [hget]
        simpa using h
      | some p =>
        simp only [hget]
        have hset : ∀ p2 : Product, p2.codigo = p.codigo →
            ((l.set i p2).map Product.codigo).Nodup := fun p2 hc => by
          rw [map_codigo_set l i p p2 hget hc]; exact h
        have hpaso : ∀ (m : Msg) (l2 : List Product),
            (l2.map Product.codigo).Nodup →
            ((guardarPaso saveOk2 m l2).2.map Product.codigo).Nodup := by
          intro m l2 hl2
          unfold guardarPaso
          split <;> exact hl2
        cases precioOpt with
        | none =>
          cases cantidadOpt with
          | none => simpa using h
          | some qq =>
            by_cases hq : validar_cantidad qq
            · simpa [hq] using hpaso _ _ (hset { p with cantidad := qq } rfl)
            · simpa [hq] using h
        | some prr =>
          cases cantidadOpt with
          | none =>
            by_cases hpr : validar_precio prr
            · simpa [hpr] using hpaso _ _ (hset { p with precio := prr } rfl)
            · simpa [hpr] using h
          | some qq =>
            by_cases hpr : validar_precio prr
            · by_cases hq : validar_cantidad qq
              · simpa [hpr, hq] using
                  hpaso _ _ (hset { p with precio := prr, cantidad := qq } rfl)
              · simpa [hpr, hq] using hset { p with precio := prr } rfl
            · simpa [hpr] using h
  · unfold eliminar_producto
    cases hb : buscar_por_codigo l c3 with
    | none => simpa using h
    | some p =>
      have hp : p ∈ l := (buscar_por_codigo_eq_some l c3 p hb).1
      cases saveOk3 with
      | false =>
        simp only [Bool.false_eq_true, if_false]
        exact nodup_codigo_of_perm
          (List.perm_append_comm.trans (perm_cons_pyRemove p l hp).symm) h
      | true =>
        simp only [if_pos rfl]
        exact h.sublist ((pyRemove_sublist l p).map Product.codigo)

/-- C8 witness: the invariant through each operation on the singleton
collection holding P1. -/
theorem C8_witness :
    ((agregar_producto true [prodP1] "P2" "Teclado" "Accesorios" 5 1).2.map
        Product.codigo).Nodup
    ∧ ((modificar_producto true [prodP1] "P1" (some 20) none).2.map
        Product.codigo).Nodup
    ∧ ((eliminar_producto false [prodP1] "P1").2.map Product.codigo).Nodup :=
  C8_uniqueness_invariant true true false [prodP1] "P2" "Teclado" "Accesorios"
    5 1 "P1" "P1" (some 20) none (by decide)

/-- C9: `add` stores all string fields verbatim: a code that is non-empty
after trimming and string-equal to no existing code is accepted and stored
exactly as passed (whitespace included), every previous product is retained
alongside the new one (so codes differing only in surrounding whitespace
coexist), and `findByCode` with any other string absent from the collection
— in particular the trimmed form of a code stored untrimmed — returns
nothing. -/
theorem C9_verbatim_storage (l : List Product) (c n cat : String) (pr : ℚ)
    (q : Int) (c2 : String)
    (h1 : validar_codigo c = true) (h2 : codigo_existe l c = false)
    (h3 : validar_nombre n = true) (h4 : validar_categoria cat = true)
    (h5 : validar_precio pr = true) (h6 : validar_cantidad q = true)
    (hc2 : c2 ≠ c) (hex2 : codigo_existe l c2 = false) :
    agregar_producto true l c n cat pr q
        = ((true, .agregadoOk n), l ++ [⟨c, n, cat, pr, q⟩])
    ∧ (∀ x ∈ l, x ∈ (agregar_producto true l c n cat pr q).2)
    ∧ buscar_por_codigo (agregar_producto true l c n cat pr q).2 c2
        = none := by
  have ha := agregar_valido true l c n cat pr q h1 h2 h3 h4 h5 h6
  rw [if_pos rfl] at ha
  refine ⟨ha, ?_, ?_⟩
  · intro x hx
    rw [ha]
    exact List.mem_append_left _ hx
  · rw [ha]
    unfold buscar_por_codigo
    have hnone : l.find? (fun p => p.codigo == c2) = none := by
      rw [List.find?_eq_none]
      intro x hx
      simpa using (codigo_existe_eq_false_iff l c2).mp hex2 x hx
    rw [find?_append_of_none _ _ _ hnone]
    have hcc : (c == c2) = false := beq_eq_false_iff_ne.mpr (Ne.symm hc2)
    simp [List.find?, hcc]

/-- C9 witness: adding the code with surrounding whitespace to the empty
collection stores it verbatim, and looking up the trimmed form finds
nothing. -/
theorem C9_witness :
    agregar_producto true [] " P1" "Mouse" "Perifericos" 10 5
        = ((true, .agregadoOk "Mouse"),
            [] ++ [⟨" P1", "Mouse", "Perifericos", 10, 5⟩])
    ∧ (∀ x ∈ ([] : List Product),
        x ∈ (agregar_producto true [] " P1" "Mouse" "Perifericos" 10 5).2)
    ∧ buscar_por_codigo
        (agregar_producto true [] " P1" "Mouse" "Perifericos" 10 5).2 "P1"
        = none :=
  C9_verbatim_storage [] " P1" "Mouse" "Perifericos" 10 5 "P1" (by decide)
    (by decide) (by decide) (by decide) (by decide) (by decide) (by decide)
    (by decide)

/-- C10: a record whose quantity field is a JSON float is not rejected —
`from_dict` coerces it by truncation toward zero (so quantity 3.7 loads as
3) — and the load loop keeps exactly the records `from_dict` accepts,
skipping exactly those on which it raises. -/
theorem C10_quantity_coercion (c n cat : String) (pv : Jval) (pr : ℚ)
    (q : ℚ) (hp : pyFloat pv = some pr) :
    from_dict ⟨some c, some n, some cat, some pv, some (.jfloat q)⟩
      = some ⟨c, n, cat, pr, ratTrunc q⟩
    ∧ ∀ datos : List ProductDict,
        cargar_productos datos = datos.filterMap from_dict := by
  constructor
  · simp [from_dict, hp, pyInt]
  · exact cargar_eq_filterMap

/-- C10 witness: quantity 37/10 loads as 3. -/
theorem C10_witness :
    from_dict ⟨some "P1", some "Mouse", some "Perifericos",
        some (.jint 5), some (.jfloat (Rat.divInt 37 10))⟩
      = some ⟨"P1", "Mouse", "Perifericos", 5, 3⟩ :=
  (C10_quantity_coercion "P1" "Mouse" "Perifericos" (.jint 5) 5
    (Rat.divInt 37 10) (by decide)).1

end Stock
